import Mathlib

/-!
# Verification of the portfolio optimization engine (`app/optimizer.py`)

Shallow embedding of `PortfolioOptimizer` from `app/optimizer.py`.

Modelling conventions:
* Python floats are modelled as rationals `ℚ` (exact real arithmetic); in `ℚ`
  division by zero yields `0` where a float computation would yield ±inf/NaN.
* `np.sqrt` is an external numeric routine; it is modelled as an explicit
  function parameter `sqrtFn : ℚ → ℚ` threaded to every operation that uses it.
* `scipy.optimize.minimize` is an external solver; it is modelled as a function
  parameter `solver : MinimizeProblem → SolverResult` receiving exactly the data
  the code passes (objective with `args` applied, initial guess, bounds,
  equality constraints) and reporting success (`result.success` with `result.x`),
  non-convergence (`result.success = False` with `result.message`), or a raised
  exception (modelling the `except Exception` arm of the `try`).
* Python raises `ValueError` with distinct messages at each failure site; the
  embedding uses one inductive with one constructor per raise site, carrying
  the value interpolated into the message where the message embeds computed data.
* The `optimization_timestamp` field (wall-clock capture) is outside the model.
-/

abbrev Asset := String

/-- Column mean, as `pandas` computes it for `returns.mean()`: sum over rows
divided by the row count. -/
def colMean (xs : List ℚ) : ℚ := xs.sum / xs.length

/-- Sample covariance of two aligned columns, as `pandas` computes it for
`returns.cov()` (denominator `n - 1`). -/
def sampleCov (xs ys : List ℚ) : ℚ :=
  (List.zipWith (fun a b => (a - colMean xs) * (b - colMean ys)) xs ys).sum
    / ((xs.length : ℚ) - 1)

/-- Elementwise product followed by sum: `np.sum(u * v)` / `np.dot(u, v)`. -/
def dotQ (xs ys : List ℚ) : ℚ := (List.zipWith (fun a b => a * b) xs ys).sum

/-- Quadratic form `np.dot(w.T, np.dot(C, w))`. -/
def quadForm (c : List (List ℚ)) (w : List ℚ) : ℚ :=
  (List.zipWith (fun wi row => wi * dotQ row w) w c).sum

/-- The optimizer's stored state: the construction arguments `returns` and
`risk_free_rate` plus the statistics `__init__` derives from them
(`mean_returns`, `cov_matrix`, `n_assets`). The returns table is a list of
labelled columns (asset name, series of periodic returns). -/
structure PortfolioOptimizer where
  returns : List (Asset × List ℚ)
  risk_free_rate : ℚ
  mean_returns : List ℚ
  cov_matrix : List (List ℚ)
  n_assets : ℕ
deriving DecidableEq

/-- `PortfolioOptimizer.__init__`: stores the returns table and risk-free rate
and derives the per-column means, the full covariance matrix and the asset
count. -/
def PortfolioOptimizer.init (rets : List (Asset × List ℚ)) (risk_free_rate : ℚ) :
    PortfolioOptimizer :=
  ⟨rets, risk_free_rate,
   rets.map (fun c => colMean c.2),
   rets.map (fun ci => rets.map (fun cj => sampleCov ci.2 cj.2)),
   rets.length⟩

/-- `PortfolioOptimizer._portfolio_stats`: returns
`(portfolio_return, portfolio_vol, sharpe_ratio)` where the return is
`np.sum(mean_returns * weights)`, the volatility is
`np.sqrt(w.T · Cov · w)` and the Sharpe ratio divides unconditionally
(no zero-volatility guard). -/
def PortfolioOptimizer._portfolio_stats (opt : PortfolioOptimizer) (sqrtFn : ℚ → ℚ)
    (w : List ℚ) : ℚ × ℚ × ℚ :=
  let ret := dotQ opt.mean_returns w
  let vol := sqrtFn (quadForm opt.cov_matrix w)
  (ret, vol, (ret - opt.risk_free_rate) / vol)

/-- `PortfolioOptimizer._objective(weights, target_vol=None)`: negative Sharpe
ratio, plus the volatility penalty `1000 * (vol - target_vol) ** 2` when a
`target_vol` is supplied. -/
def PortfolioOptimizer._objective (opt : PortfolioOptimizer) (sqrtFn : ℚ → ℚ)
    (w : List ℚ) (target_vol : Option ℚ) : ℚ :=
  let s := opt._portfolio_stats sqrtFn w
  match target_vol with
  | some t => -s.2.2 + 1000 * (s.2.1 - t) ^ 2
  | none => -s.2.2

/-- The data the code hands to `scipy.optimize.minimize`: the objective with
the extra `args` already applied, the initial guess `x0`, the per-variable
box bounds, and the list of equality-constraint functions. -/
structure MinimizeProblem where
  objective : List ℚ → ℚ
  x0 : List ℚ
  bounds : List (ℚ × ℚ)
  constraints : List (List ℚ → ℚ)

/-- Abstract outcome of the external solver call: `success x` models
`result.success = True` with `result.x = x`; `failure msg` models
`result.success = False` with `result.message = msg`; `raised msg` models an
exception thrown inside the solve (caught by the `except Exception` arm). -/
inductive SolverResult where
  | success (x : List ℚ)
  | failure (message : String)
  | raised (message : String)

/-- One constructor per `raise ValueError(...)` site of `optimize`, carrying
the computed value interpolated into the message where there is one. -/
inductive OptimizeError where
  | invalidRiskLevel
  | invalidMaxWeight
  | invalidMinWeight
  | infeasibleConstraint (product : ℚ)
  | optimizationFailed (message : String)
deriving DecidableEq

/-- The spec's `ValidationError` class: the three out-of-range-parameter raise
sites (as opposed to `InfeasibleConstraintError` / `OptimizationError`). -/
def OptimizeError.isValidationErr : OptimizeError → Bool
  | invalidRiskLevel => true
  | invalidMaxWeight => true
  | invalidMinWeight => true
  | _ => false

/-- The result dictionary built by `optimize` (minus the timestamp): `weights`
models the `optimal_portfolio` asset→weight mapping as an association list in
column order. -/
structure OptimizeResult where
  weights : List (Asset × ℚ)
  expected_return : ℚ
  expected_volatility : ℚ
  sharpe : ℚ
deriving DecidableEq

/-- `initial_weights = np.array([1/self.n_assets] * self.n_assets)`. -/
def PortfolioOptimizer.initialWeights (opt : PortfolioOptimizer) : List ℚ :=
  List.replicate opt.n_assets (1 / (opt.n_assets : ℚ))

/-- The `minimize(...)` call site of the general path: objective
`self._objective` with `args=(risk_level,)` (so `target_vol = risk_level`),
initial guess equal weights, bounds `(min_weight or 0, max_weight)` per asset,
the sum-to-one equality constraint, and the target-return equality constraint
when `target_return` is supplied. -/
def PortfolioOptimizer.problem (opt : PortfolioOptimizer) (sqrtFn : ℚ → ℚ)
    (risk_level max_weight : ℚ) (min_weight target_return : Option ℚ) :
    MinimizeProblem :=
  ⟨fun x => opt._objective sqrtFn x (some risk_level),
   opt.initialWeights,
   List.replicate opt.n_assets (min_weight.getD 0, max_weight),
   (fun x => x.sum - 1) ::
     (match target_return with
      | some t => [fun x => dotQ opt.mean_returns x - t]
      | none => [])⟩

/-- Lines 147–156 of `optimizer.py`: compute `_portfolio_stats` on the selected
weight vector and build the result dictionary
`dict(zip(self.returns.columns, weights))` plus the three statistics. -/
def PortfolioOptimizer.generalResult (opt : PortfolioOptimizer) (sqrtFn : ℚ → ℚ)
    (w : List ℚ) : OptimizeResult :=
  let s := opt._portfolio_stats sqrtFn w
  ⟨List.zip (opt.returns.map Prod.fst) w, s.1, s.2.1, s.2.2⟩

/-- The third validation check:
`min_weight is not None and (min_weight < 0 or min_weight > max_weight)`. -/
def badMinWeight (max_weight : ℚ) : Option ℚ → Bool
  | none => false
  | some m => decide (m < 0) || decide (max_weight < m)

/-- `PortfolioOptimizer.optimize(risk_level, max_weight, min_weight=None,
target_return=None)`, with the external `np.sqrt` and solver supplied as
parameters. The branch structure follows the source line by line:
validation of `risk_level`, `max_weight`, `min_weight` (in that order);
the feasibility check `max_weight * n_assets < 1`; the single-asset fast path;
then the solve with the success / non-convergence-fallback / exception arms. -/
def PortfolioOptimizer.optimize (opt : PortfolioOptimizer) (sqrtFn : ℚ → ℚ)
    (solver : MinimizeProblem → SolverResult)
    (risk_level max_weight : ℚ) (min_weight target_return : Option ℚ) :
    Except OptimizeError OptimizeResult :=
  if risk_level ≤ 0 ∨ 1 < risk_level then .error .invalidRiskLevel
  else if max_weight ≤ 0 ∨ 1 < max_weight then .error .invalidMaxWeight
  else if badMinWeight max_weight min_weight then .error .invalidMinWeight
  else if max_weight * (opt.n_assets : ℚ) < 1 then
    .error (.infeasibleConstraint (max_weight * (opt.n_assets : ℚ)))
  else if opt.n_assets = 1 then
    .ok ⟨[((opt.returns.map Prod.fst).headI, 1)],
         opt.mean_returns.headI,
         sqrtFn opt.cov_matrix.headI.headI,
         (opt.mean_returns.headI - opt.risk_free_rate) / sqrtFn opt.cov_matrix.headI.headI⟩
  else
    match solver (opt.problem sqrtFn risk_level max_weight min_weight target_return) with
    | .raised msg => .error (.optimizationFailed ("Portfolio optimization failed: " ++ msg))
    | .failure _ => .ok (opt.generalResult sqrtFn opt.initialWeights)
    | .success x => .ok (opt.generalResult sqrtFn x)

/-- A method call `opt.optimize(...)` seen as a state transformer: the state
`self` after the call paired with the call's outcome. The method body contains
no assignment to any `self` attribute, so the state passes through unchanged. -/
def PortfolioOptimizer.optimizeCall (opt : PortfolioOptimizer) (sqrtFn : ℚ → ℚ)
    (solver : MinimizeProblem → SolverResult)
    (risk_level max_weight : ℚ) (min_weight target_return : Option ℚ) :
    PortfolioOptimizer × Except OptimizeError OptimizeResult :=
  (opt, opt.optimize sqrtFn solver risk_level max_weight min_weight target_return)

/-! ## Concrete fixtures for witnesses and counterexamples -/

/-- Two-asset returns table with constant columns: means `(1/100, 1/50)` and a
zero covariance matrix. -/
def cexReturns : List (Asset × List ℚ) := [("A", [1/100, 1/100]), ("B", [1/50, 1/50])]

/-- The optimizer built from `cexReturns` with the default risk-free rate. -/
def opt2 : PortfolioOptimizer := PortfolioOptimizer.init cexReturns (1/50)

/-- A square-root model adequate for the zero covariance matrix of `opt2`. -/
def sq0 : ℚ → ℚ := fun _ => 0

/-- A solver that always reports non-convergence. -/
def failSolver : MinimizeProblem → SolverResult :=
  fun _ => .failure "Iteration limit reached"

/-- A solver that always converges to the weight vector `[1/4, 3/4]`. -/
def sucSolver : MinimizeProblem → SolverResult := fun _ => .success [1/4, 3/4]

/-- A solver that always raises inside the solve. -/
def raiseSolver : MinimizeProblem → SolverResult :=
  fun _ => .raised "Singular matrix C in LSQ subproblem"

/-- A solver whose answer depends on the objective function it receives: it
probes the objective at the initial guess. The two calls of the riskLevel
counterexample hand it problems identical except for the riskLevel captured
inside the objective. -/
def probeSolver : MinimizeProblem → SolverResult :=
  fun p => if p.objective p.x0 ≤ 500 then .success [1/4, 3/4] else .success [3/4, 1/4]

/-! ## Helper lemmas -/

lemma badMinWeight_eq_false (mw : ℚ) (mnw : Option ℚ)
    (h : ∀ m ∈ mnw, 0 ≤ m ∧ m ≤ mw) : badMinWeight mw mnw = false := by
  cases mnw with
  | none => rfl
  | some m =>
    obtain ⟨hm0, hm1⟩ := h m rfl
    simp only [badMinWeight, Bool.or_eq_false_iff, decide_eq_false_iff_not, not_lt]
    exact ⟨hm0, hm1⟩

lemma badMinWeight_eq_true_iff (mw : ℚ) (mnw : Option ℚ) :
    badMinWeight mw mnw = true ↔ ∃ m, mnw = some m ∧ (m < 0 ∨ mw < m) := by
  cases mnw with
  | none => simp [badMinWeight]
  | some m => simp [badMinWeight]

/-- Characterization of `optimize` on the general (multi-asset) path, one case
per solver outcome. -/
lemma optimize_general_eq (opt : PortfolioOptimizer) (sqrtFn : ℚ → ℚ)
    (solver : MinimizeProblem → SolverResult) (rl mw : ℚ) (mnw tr : Option ℚ)
    (h1 : 0 < rl) (h2 : rl ≤ 1) (h3 : 0 < mw) (h4 : mw ≤ 1)
    (h5 : ∀ m ∈ mnw, 0 ≤ m ∧ m ≤ mw) (h6 : 1 ≤ mw * (opt.n_assets : ℚ))
    (h7 : opt.n_assets ≠ 1) :
    opt.optimize sqrtFn solver rl mw mnw tr =
      match solver (opt.problem sqrtFn rl mw mnw tr) with
      | .raised msg =>
          .error (.optimizationFailed ("Portfolio optimization failed: " ++ msg))
      | .failure _ => .ok (opt.generalResult sqrtFn opt.initialWeights)
      | .success x => .ok (opt.generalResult sqrtFn x) := by
  have c1 : ¬(rl ≤ 0 ∨ 1 < rl) := by push_neg; exact ⟨h1, h2⟩
  have c2 : ¬(mw ≤ 0 ∨ 1 < mw) := by push_neg; exact ⟨h3, h4⟩
  have c3 : ¬(badMinWeight mw mnw = true) := by
    rw [badMinWeight_eq_false mw mnw h5]; simp
  have c4 : ¬(mw * (opt.n_assets : ℚ) < 1) := not_lt.2 h6
  unfold PortfolioOptimizer.optimize
  rw [if_neg c1, if_neg c2, if_neg c3, if_neg c4, if_neg h7]

lemma opt2_n_assets : opt2.n_assets = 2 := rfl

/-! ## Claims -/

/-- C9: `optimize` never mutates the optimizer's stored state: after any call
(returning or raising), the returns table, `mean_returns`, `cov_matrix`,
`risk_free_rate` and `n_assets` are what they were before the call. -/
theorem optimize_state_unchanged (opt : PortfolioOptimizer) (sqrtFn : ℚ → ℚ)
    (solver : MinimizeProblem → SolverResult) (rl mw : ℚ) (mnw tr : Option ℚ) :
    ((opt.optimizeCall sqrtFn solver rl mw mnw tr).1.returns = opt.returns) ∧
    ((opt.optimizeCall sqrtFn solver rl mw mnw tr).1.mean_returns = opt.mean_returns) ∧
    ((opt.optimizeCall sqrtFn solver rl mw mnw tr).1.cov_matrix = opt.cov_matrix) ∧
    ((opt.optimizeCall sqrtFn solver rl mw mnw tr).1.risk_free_rate = opt.risk_free_rate) ∧
    ((opt.optimizeCall sqrtFn solver rl mw mnw tr).1.n_assets = opt.n_assets) :=
  ⟨rfl, rfl, rfl, rfl, rfl⟩

/-- C10: when validation passes on the general path, the equal-weights vector
(which is both the solver's initial guess and the non-convergence fallback) is
feasible for the upper bound: each component is `1/numAssets`, positive and at
most `maxWeight` (a consequence of the `maxWeight * numAssets ≥ 1` check), and
the components sum exactly to 1. -/
theorem initialWeights_feasible (opt : PortfolioOptimizer) (sqrtFn : ℚ → ℚ)
    (rl mw : ℚ) (mnw tr : Option ℚ)
    (h6 : 1 ≤ mw * (opt.n_assets : ℚ)) (h7 : 2 ≤ opt.n_assets) :
    (opt.problem sqrtFn rl mw mnw tr).x0 = opt.initialWeights ∧
    opt.initialWeights = List.replicate opt.n_assets (1 / (opt.n_assets : ℚ)) ∧
    (∀ q ∈ opt.initialWeights, 0 < q ∧ q ≤ mw) ∧
    opt.initialWeights.sum = 1 := by
  have hn0 : 0 < (opt.n_assets : ℚ) := by
    have : (0 : ℕ) < opt.n_assets := by omega
    exact_mod_cast this
  have hne : (opt.n_assets : ℚ) ≠ 0 := ne_of_gt hn0
  refine ⟨rfl, rfl, ?_, ?_⟩
  · intro q hq
    have hq' : q = 1 / (opt.n_assets : ℚ) := List.eq_of_mem_replicate hq
    subst hq'
    constructor
    · positivity
    · rw [div_le_iff₀ hn0]
      linarith [h6]
  · unfold PortfolioOptimizer.initialWeights
    rw [List.sum_replicate, nsmul_eq_mul, mul_one_div, div_self hne]

/-- C10 witness: the feasibility facts instantiated at the two-asset fixture
`opt2` with `maxWeight = 7/10`. -/
theorem initialWeights_feasible_witness :
    (0 < (1 : ℚ)/2 ∧ (1 : ℚ)/2 ≤ 7/10) ∧ opt2.initialWeights.sum = 1 := by
  have h := initialWeights_feasible opt2 sq0 (1/10) (7/10) none none
    (by rw [opt2_n_assets]; norm_num) (by rw [opt2_n_assets])
  refine ⟨?_, h.2.2.2⟩
  have hmem : (1 : ℚ)/2 ∈ opt2.initialWeights := by
    rw [h.2.1, opt2_n_assets]
    norm_num [List.mem_replicate]
  exact h.2.2.1 (1/2) hmem

/-- C3 (amended): `riskLevel` does enter the solved objective. The `minimize`
call passes `args=(risk_level,)`, so `_objective` receives
`target_vol = risk_level` and the objective handed to the solver is the
negative Sharpe ratio *plus* the active volatility penalty
`1000 * (volatility - riskLevel)^2` — not the bare negative Sharpe ratio. -/
theorem solved_objective_uses_riskLevel (opt : PortfolioOptimizer) (sqrtFn : ℚ → ℚ)
    (rl mw : ℚ) (mnw tr : Option ℚ) (w : List ℚ) :
    (opt.problem sqrtFn rl mw mnw tr).objective w =
      -((dotQ opt.mean_returns w - opt.risk_free_rate) / sqrtFn (quadForm opt.cov_matrix w))
        + 1000 * (sqrtFn (quadForm opt.cov_matrix w) - rl) ^ 2 := rfl

/-- C4: when `riskLevel`, `maxWeight` and `minWeight` pass their range checks
but `maxWeight * numAssets < 1`, `optimize` raises the infeasible-constraint
error, whose message carries the computed product `maxWeight * numAssets`. -/
theorem optimize_infeasible (opt : PortfolioOptimizer) (sqrtFn : ℚ → ℚ)
    (solver : MinimizeProblem → SolverResult) (rl mw : ℚ) (mnw tr : Option ℚ)
    (h1 : 0 < rl) (h2 : rl ≤ 1) (h3 : 0 < mw) (h4 : mw ≤ 1)
    (h5 : ∀ m ∈ mnw, 0 ≤ m ∧ m ≤ mw)
    (h6 : mw * (opt.n_assets : ℚ) < 1) :
    opt.optimize sqrtFn solver rl mw mnw tr =
      .error (.infeasibleConstraint (mw * (opt.n_assets : ℚ))) := by
  have c1 : ¬(rl ≤ 0 ∨ 1 < rl) := by push_neg; exact ⟨h1, h2⟩
  have c2 : ¬(mw ≤ 0 ∨ 1 < mw) := by push_neg; exact ⟨h3, h4⟩
  have c3 : ¬(badMinWeight mw mnw = true) := by
    rw [badMinWeight_eq_false mw mnw h5]; simp
  unfold PortfolioOptimizer.optimize
  rw [if_neg c1, if_neg c2, if_neg c3, if_pos h6]

/-- C4 witness: two assets with `maxWeight = 3/10` (product `3/5 < 1`) yield
the infeasible-constraint error carrying `3/5`. -/
theorem optimize_infeasible_witness :
    opt2.optimize sq0 failSolver (1/10) (3/10) none none =
      .error (.infeasibleConstraint (3/5)) := by
  have h := optimize_infeasible opt2 sq0 failSolver (1/10) (3/10) none none
    (by norm_num) (by norm_num) (by norm_num) (by norm_num) (by simp)
    (by rw [opt2_n_assets]; norm_num)
  rw [h, opt2_n_assets]
  norm_num

/-- C6: with a single asset and validated parameters, no solver is consulted
(the conclusion holds for every `solver`): the result is the weight map
`{asset: 1}` with `expectedReturn` the asset's mean return,
`expectedVolatility` the square root of its variance and `sharpeRatio`
`(mean - riskFreeRate) / volatility`, and no error is raised (the zero-variance
case included — the division is unguarded). -/
theorem optimize_single_asset (name : Asset) (series : List ℚ) (rfr : ℚ)
    (sqrtFn : ℚ → ℚ) (solver : MinimizeProblem → SolverResult)
    (rl mw : ℚ) (mnw tr : Option ℚ)
    (h1 : 0 < rl) (h2 : rl ≤ 1) (h3 : 0 < mw) (h4 : mw ≤ 1)
    (h5 : ∀ m ∈ mnw, 0 ≤ m ∧ m ≤ mw)
    (h6 : 1 ≤ mw * ((PortfolioOptimizer.init [(name, series)] rfr).n_assets : ℚ)) :
    (PortfolioOptimizer.init [(name, series)] rfr).optimize sqrtFn solver rl mw mnw tr =
      .ok ⟨[(name, 1)], colMean series, sqrtFn (sampleCov series series),
           (colMean series - rfr) / sqrtFn (sampleCov series series)⟩ := by
  have c1 : ¬(rl ≤ 0 ∨ 1 < rl) := by push_neg; exact ⟨h1, h2⟩
  have c2 : ¬(mw ≤ 0 ∨ 1 < mw) := by push_neg; exact ⟨h3, h4⟩
  have c3 : ¬(badMinWeight mw mnw = true) := by
    rw [badMinWeight_eq_false mw mnw h5]; simp
  have c4 : ¬(mw * (((PortfolioOptimizer.init [(name, series)] rfr).n_assets : ℕ) : ℚ) < 1) :=
    not_lt.2 h6
  unfold PortfolioOptimizer.optimize
  rw [if_neg c1, if_neg c2, if_neg c3, if_neg c4,
    if_pos (show (PortfolioOptimizer.init [(name, series)] rfr).n_assets = 1 from rfl)]
  rfl

/-- C6 witness: a single constant-return asset (variance exactly zero) with
`maxWeight = 1` yields `{A: 1}` and the unguarded statistics, with no error. -/
theorem optimize_single_asset_witness :
    (PortfolioOptimizer.init [("A", [1/100, 1/100])] (1/50)).optimize sq0 failSolver
        (1/10) 1 none none =
      .ok ⟨[("A", 1)], 1/100, 0, 0⟩ := by
  have h := optimize_single_asset "A" [1/100, 1/100] (1/50) sq0 failSolver
    (1/10) 1 none none (by norm_num) (by norm_num) (by norm_num) (by norm_num)
    (by simp) (by norm_num [PortfolioOptimizer.init])
  rw [h]
  norm_num [colMean, sq0]

/-- C2: on the general path (`numAssets ≥ 2`, validation passed), a solver
that reports non-convergence does not make `optimize` raise: the result is the
equal-weights vector (`1/numAssets` per asset, in column order) and the three
statistics are `_portfolio_stats` of that fallback vector. -/
theorem optimize_nonconvergence_fallback (opt : PortfolioOptimizer) (sqrtFn : ℚ → ℚ)
    (solver : MinimizeProblem → SolverResult) (rl mw : ℚ) (mnw tr : Option ℚ)
    (msg : String)
    (h1 : 0 < rl) (h2 : rl ≤ 1) (h3 : 0 < mw) (h4 : mw ≤ 1)
    (h5 : ∀ m ∈ mnw, 0 ≤ m ∧ m ≤ mw) (h6 : 1 ≤ mw * (opt.n_assets : ℚ))
    (h7 : 2 ≤ opt.n_assets)
    (hf : solver (opt.problem sqrtFn rl mw mnw tr) = .failure msg) :
    opt.optimize sqrtFn solver rl mw mnw tr =
      .ok ⟨List.zip (opt.returns.map Prod.fst)
             (List.replicate opt.n_assets (1 / (opt.n_assets : ℚ))),
           (opt._portfolio_stats sqrtFn
             (List.replicate opt.n_assets (1 / (opt.n_assets : ℚ)))).1,
           (opt._portfolio_stats sqrtFn
             (List.replicate opt.n_assets (1 / (opt.n_assets : ℚ)))).2.1,
           (opt._portfolio_stats sqrtFn
             (List.replicate opt.n_assets (1 / (opt.n_assets : ℚ)))).2.2⟩ := by
  have h7' : opt.n_assets ≠ 1 := by omega
  rw [optimize_general_eq opt sqrtFn solver rl mw mnw tr h1 h2 h3 h4 h5 h6 h7', hf]
  rfl

/-- C2 witness: the two-asset fixture with a non-converging solver returns the
equal-weights result `{A: 1/2, B: 1/2}` with statistics computed from it. -/
theorem optimize_nonconvergence_fallback_witness :
    opt2.optimize sq0 failSolver (1/10) (7/10) none none =
      .ok ⟨[("A", 1/2), ("B", 1/2)], 3/200, 0, 0⟩ := by
  have h := optimize_nonconvergence_fallback opt2 sq0 failSolver (1/10) (7/10)
    none none "Iteration limit reached" (by norm_num) (by norm_num) (by norm_num)
    (by norm_num) (by simp) (by rw [opt2_n_assets]; norm_num) (by rw [opt2_n_assets]) rfl
  rw [h, opt2_n_assets]
  norm_num [opt2, cexReturns, PortfolioOptimizer.init, PortfolioOptimizer._portfolio_stats,
    dotQ, quadForm, colMean, sampleCov, sq0, List.replicate]

/-- C7: on the general path, whichever weight vector is selected (the solver's
`result.x` on success, the equal-weights fallback on non-convergence), the
returned statistics are exactly `expectedReturn = dot(meanReturns, w)`,
`expectedVolatility = sqrt(w·Cov·w)` and
`sharpeRatio = (expectedReturn - riskFreeRate) / expectedVolatility`, with the
division applied unconditionally (no zero-volatility guard). -/
theorem optimize_stats_formulas (opt : PortfolioOptimizer) (sqrtFn : ℚ → ℚ)
    (solver : MinimizeProblem → SolverResult) (rl mw : ℚ) (mnw tr : Option ℚ)
    (h1 : 0 < rl) (h2 : rl ≤ 1) (h3 : 0 < mw) (h4 : mw ≤ 1)
    (h5 : ∀ m ∈ mnw, 0 ≤ m ∧ m ≤ mw) (h6 : 1 ≤ mw * (opt.n_assets : ℚ))
    (h7 : 2 ≤ opt.n_assets) :
    (∀ x, solver (opt.problem sqrtFn rl mw mnw tr) = .success x →
      opt.optimize sqrtFn solver rl mw mnw tr =
        .ok ⟨List.zip (opt.returns.map Prod.fst) x,
             dotQ opt.mean_returns x,
             sqrtFn (quadForm opt.cov_matrix x),
             (dotQ opt.mean_returns x - opt.risk_free_rate) /
               sqrtFn (quadForm opt.cov_matrix x)⟩) ∧
    (∀ msg, solver (opt.problem sqrtFn rl mw mnw tr) = .failure msg →
      opt.optimize sqrtFn solver rl mw mnw tr =
        .ok ⟨List.zip (opt.returns.map Prod.fst) opt.initialWeights,
             dotQ opt.mean_returns opt.initialWeights,
             sqrtFn (quadForm opt.cov_matrix opt.initialWeights),
             (dotQ opt.mean_returns opt.initialWeights - opt.risk_free_rate) /
               sqrtFn (quadForm opt.cov_matrix opt.initialWeights)⟩) := by
  have h7' : opt.n_assets ≠ 1 := by omega
  constructor
  · intro x hx
    rw [optimize_general_eq opt sqrtFn solver rl mw mnw tr h1 h2 h3 h4 h5 h6 h7', hx]
    rfl
  · intro msg hmsg
    rw [optimize_general_eq opt sqrtFn solver rl mw mnw tr h1 h2 h3 h4 h5 h6 h7', hmsg]
    rfl

/-- C7 witness: a solver converging to `[1/4, 3/4]` on the two-asset fixture
yields exactly the three formula values on that vector. -/
theorem optimize_stats_formulas_witness :
    opt2.optimize sq0 sucSolver (1/10) (7/10) none none =
      .ok ⟨List.zip (opt2.returns.map Prod.fst) [1/4, 3/4],
           dotQ opt2.mean_returns [1/4, 3/4],
           sq0 (quadForm opt2.cov_matrix [1/4, 3/4]),
           (dotQ opt2.mean_returns [1/4, 3/4] - opt2.risk_free_rate) /
             sq0 (quadForm opt2.cov_matrix [1/4, 3/4])⟩ :=
  (optimize_stats_formulas opt2 sq0 sucSolver (1/10) (7/10) none none
    (by norm_num) (by norm_num) (by norm_num) (by norm_num) (by simp)
    (by rw [opt2_n_assets]; norm_num) (by rw [opt2_n_assets])).1 [1/4, 3/4] rfl

/-- C8: an exception raised inside the solve of the general path is caught and
re-raised as the optimization-failure error whose message wraps the original
exception's message. -/
theorem optimize_wraps_solve_exception (opt : PortfolioOptimizer) (sqrtFn : ℚ → ℚ)
    (solver : MinimizeProblem → SolverResult) (rl mw : ℚ) (mnw tr : Option ℚ)
    (msg : String)
    (h1 : 0 < rl) (h2 : rl ≤ 1) (h3 : 0 < mw) (h4 : mw ≤ 1)
    (h5 : ∀ m ∈ mnw, 0 ≤ m ∧ m ≤ mw) (h6 : 1 ≤ mw * (opt.n_assets : ℚ))
    (h7 : 2 ≤ opt.n_assets)
    (hr : solver (opt.problem sqrtFn rl mw mnw tr) = .raised msg) :
    opt.optimize sqrtFn solver rl mw mnw tr =
      .error (.optimizationFailed ("Portfolio optimization failed: " ++ msg)) := by
  have h7' : opt.n_assets ≠ 1 := by omega
  rw [optimize_general_eq opt sqrtFn solver rl mw mnw tr h1 h2 h3 h4 h5 h6 h7', hr]

/-- C8 witness: a solver raising "Singular matrix C in LSQ subproblem" makes
`optimize` fail with the wrapped message. -/
theorem optimize_wraps_solve_exception_witness :
    opt2.optimize sq0 raiseSolver (1/10) (7/10) none none =
      .error (.optimizationFailed
        ("Portfolio optimization failed: " ++ "Singular matrix C in LSQ subproblem")) :=
  optimize_wraps_solve_exception opt2 sq0 raiseSolver (1/10) (7/10) none none
    "Singular matrix C in LSQ subproblem" (by norm_num) (by norm_num) (by norm_num)
    (by norm_num) (by simp) (by rw [opt2_n_assets]; norm_num) (by rw [opt2_n_assets]) rfl

/-- C5: `optimize` raises a `ValidationError` exactly when `riskLevel` is
outside `(0,1]`, or `maxWeight` is outside `(0,1]`, or a supplied `minWeight`
is outside `[0, maxWeight]`; the checks run in that order and the first
failing check determines which error is raised. -/
theorem optimize_validation_order (opt : PortfolioOptimizer) (sqrtFn : ℚ → ℚ)
    (solver : MinimizeProblem → SolverResult) (rl mw : ℚ) (mnw tr : Option ℚ) :
    ((∃ e, opt.optimize sqrtFn solver rl mw mnw tr = .error e ∧ e.isValidationErr = true) ↔
      ((rl ≤ 0 ∨ 1 < rl) ∨ (mw ≤ 0 ∨ 1 < mw) ∨
        ∃ m, mnw = some m ∧ (m < 0 ∨ mw < m))) ∧
    ((rl ≤ 0 ∨ 1 < rl) →
      opt.optimize sqrtFn solver rl mw mnw tr = .error .invalidRiskLevel) ∧
    (¬(rl ≤ 0 ∨ 1 < rl) → (mw ≤ 0 ∨ 1 < mw) →
      opt.optimize sqrtFn solver rl mw mnw tr = .error .invalidMaxWeight) ∧
    (¬(rl ≤ 0 ∨ 1 < rl) → ¬(mw ≤ 0 ∨ 1 < mw) →
      (∃ m, mnw = some m ∧ (m < 0 ∨ mw < m)) →
      opt.optimize sqrtFn solver rl mw mnw tr = .error .invalidMinWeight) := by
  have case1 : (rl ≤ 0 ∨ 1 < rl) →
      opt.optimize sqrtFn solver rl mw mnw tr = .error .invalidRiskLevel := by
    intro h
    unfold PortfolioOptimizer.optimize
    rw [if_pos h]
  have case2 : ¬(rl ≤ 0 ∨ 1 < rl) → (mw ≤ 0 ∨ 1 < mw) →
      opt.optimize sqrtFn solver rl mw mnw tr = .error .invalidMaxWeight := by
    intro hn h
    unfold PortfolioOptimizer.optimize
    rw [if_neg hn, if_pos h]
  have case3 : ¬(rl ≤ 0 ∨ 1 < rl) → ¬(mw ≤ 0 ∨ 1 < mw) →
      (∃ m, mnw = some m ∧ (m < 0 ∨ mw < m)) →
      opt.optimize sqrtFn solver rl mw mnw tr = .error .invalidMinWeight := by
    intro hn1 hn2 h
    have hb : badMinWeight mw mnw = true := (badMinWeight_eq_true_iff mw mnw).2 h
    unfold PortfolioOptimizer.optimize
    rw [if_neg hn1, if_neg hn2, if_pos hb]
  refine ⟨⟨?_, ?_⟩, case1, case2, case3⟩
  · rintro ⟨e, he, hv⟩
    by_contra hnone
    push_neg at hnone
    obtain ⟨n1, n2, n3⟩ := hnone
    have n1' : ¬(rl ≤ 0 ∨ 1 < rl) := by push_neg; exact n1
    have n2' : ¬(mw ≤ 0 ∨ 1 < mw) := by push_neg; exact n2
    have c3 : ¬(badMinWeight mw mnw = true) := by
      intro hb
      obtain ⟨m, hm, hbad⟩ := (badMinWeight_eq_true_iff mw mnw).1 hb
      obtain ⟨hm0, hm1⟩ := n3 m hm
      rcases hbad with h | h
      · exact absurd h (not_lt.2 hm0)
      · exact absurd h (not_lt.2 hm1)
    unfold PortfolioOptimizer.optimize at he
    rw [if_neg n1', if_neg n2', if_neg c3] at he
    by_cases c4 : mw * (opt.n_assets : ℚ) < 1
    · rw [if_pos c4] at he
      injection he with he'
      rw [← he'] at hv
      simp [OptimizeError.isValidationErr] at hv
    · rw [if_neg c4] at he
      by_cases c5 : opt.n_assets = 1
      · rw [if_pos c5] at he
        exact Except.noConfusion he
      · rw [if_neg c5] at he
        cases hs : solver (opt.problem sqrtFn rl mw mnw tr) with
        | success x =>
          rw [hs] at he
          exact Except.noConfusion he
        | failure m =>
          rw [hs] at he
          exact Except.noConfusion he
        | raised m =>
          rw [hs] at he
          injection he with he'
          rw [← he'] at hv
          simp [OptimizeError.isValidationErr] at hv
  · rintro (h | h | h)
    · exact ⟨.invalidRiskLevel, case1 h, rfl⟩
    · by_cases h1 : rl ≤ 0 ∨ 1 < rl
      · exact ⟨.invalidRiskLevel, case1 h1, rfl⟩
      · exact ⟨.invalidMaxWeight, case2 h1 h, rfl⟩
    · by_cases h1 : rl ≤ 0 ∨ 1 < rl
      · exact ⟨.invalidRiskLevel, case1 h1, rfl⟩
      · by_cases h2 : mw ≤ 0 ∨ 1 < mw
        · exact ⟨.invalidMaxWeight, case2 h1 h2, rfl⟩
        · exact ⟨.invalidMinWeight, case3 h1 h2 h, rfl⟩

/-- C5 witness: with both `riskLevel = 2` and `maxWeight = 3/2` out of range,
the first check wins and the riskLevel error is raised; with only
`maxWeight = 3/2` bad, the maxWeight error; with only `minWeight = 3/5 >
maxWeight = 1/2` bad, the minWeight error. -/
theorem optimize_validation_order_witness :
    opt2.optimize sq0 failSolver 2 (3/2) none none = .error .invalidRiskLevel ∧
    opt2.optimize sq0 failSolver (1/10) (3/2) none none = .error .invalidMaxWeight ∧
    opt2.optimize sq0 failSolver (1/10) (1/2) (some (3/5)) none =
      .error .invalidMinWeight := by
  refine ⟨?_, ?_, ?_⟩
  · exact (optimize_validation_order opt2 sq0 failSolver 2 (3/2) none none).2.1
      (Or.inr (by norm_num))
  · exact (optimize_validation_order opt2 sq0 failSolver (1/10) (3/2) none none).2.2.1
      (by push_neg; constructor <;> norm_num) (Or.inr (by norm_num))
  · exact (optimize_validation_order opt2 sq0 failSolver (1/10) (1/2)
      (some (3/5)) none).2.2.2 (by push_neg; constructor <;> norm_num)
      (by push_neg; constructor <;> norm_num)
      ⟨3/5, rfl, Or.inr (by norm_num)⟩

lemma replicate_inv_sum (n : ℕ) (hn : n ≠ 0) :
    (List.replicate n (1 / (n : ℚ))).sum = 1 := by
  have hne : (n : ℚ) ≠ 0 := Nat.cast_ne_zero.2 hn
  rw [List.sum_replicate, nsmul_eq_mul, mul_one_div, div_self hne]

lemma inv_nat_le_of_one_le_mul (n : ℕ) (mw : ℚ) (hn : n ≠ 0)
    (h : 1 ≤ mw * (n : ℚ)) : 1 / (n : ℚ) ≤ mw := by
  have hn0 : 0 < (n : ℚ) := by
    have : 0 < n := Nat.pos_of_ne_zero hn
    exact_mod_cast this
  rw [div_le_iff₀ hn0]
  linarith

/-- C1 (amended): for a validated call, if `optimize` returns a result then the
weights map has one entry per asset, the weight values sum to 1 within `1e-6`,
and every weight lies in `[0, maxWeight]` — assuming the solver's feasibility
contract on success (a converged solve respects its bounds and the sum-to-one
constraint within `1e-6`). The lower bound is `0`, not `minWeight`: on the
non-convergence fallback path the equal-weights vector can lie below a supplied
`minWeight`. -/
theorem optimize_weights_feasible (rets : List (Asset × List ℚ)) (rfr : ℚ)
    (sqrtFn : ℚ → ℚ) (solver : MinimizeProblem → SolverResult)
    (rl mw : ℚ) (mnw tr : Option ℚ) (r : OptimizeResult)
    (hs : ∀ x, solver ((PortfolioOptimizer.init rets rfr).problem sqrtFn rl mw mnw tr) =
        .success x →
      x.length = rets.length ∧ |x.sum - 1| ≤ 1/1000000 ∧
      ∀ q ∈ x, mnw.getD 0 ≤ q ∧ q ≤ mw)
    (h1 : 0 < rl) (h2 : rl ≤ 1) (h3 : 0 < mw) (h4 : mw ≤ 1)
    (h5 : ∀ m ∈ mnw, 0 ≤ m ∧ m ≤ mw)
    (h6 : 1 ≤ mw * (((PortfolioOptimizer.init rets rfr).n_assets : ℕ) : ℚ))
    (hr : (PortfolioOptimizer.init rets rfr).optimize sqrtFn solver rl mw mnw tr = .ok r) :
    r.weights.length = rets.length ∧
    |(r.weights.map Prod.snd).sum - 1| ≤ 1/1000000 ∧
    ∀ p ∈ r.weights, 0 ≤ p.2 ∧ p.2 ≤ mw := by
  have hnass : (PortfolioOptimizer.init rets rfr).n_assets = rets.length := rfl
  have hnames : ((PortfolioOptimizer.init rets rfr).returns.map Prod.fst).length =
      rets.length := by
    simp [PortfolioOptimizer.init]
  have hn0 : rets.length ≠ 0 := by
    intro h0
    rw [hnass, h0] at h6
    norm_num at h6
  by_cases c5 : (PortfolioOptimizer.init rets rfr).n_assets = 1
  · -- single-asset fast path
    have c1 : ¬(rl ≤ 0 ∨ 1 < rl) := by push_neg; exact ⟨h1, h2⟩
    have c2 : ¬(mw ≤ 0 ∨ 1 < mw) := by push_neg; exact ⟨h3, h4⟩
    have c3 : ¬(badMinWeight mw mnw = true) := by
      rw [badMinWeight_eq_false mw mnw h5]; simp
    have c4 : ¬(mw * (((PortfolioOptimizer.init rets rfr).n_assets : ℕ) : ℚ) < 1) :=
      not_lt.2 h6
    unfold PortfolioOptimizer.optimize at hr
    rw [if_neg c1, if_neg c2, if_neg c3, if_neg c4, if_pos c5] at hr
    injection hr with hr'
    subst hr'
    have hmw1 : 1 ≤ mw := by
      rw [c5] at h6
      push_cast at h6
      linarith
    have hr1 : rets.length = 1 := by rw [← hnass]; exact c5
    refine ⟨by simp [hr1], by norm_num, ?_⟩
    intro p hp
    simp only [List.mem_singleton] at hp
    subst hp
    exact ⟨by norm_num, hmw1⟩
  · -- general path
    rw [optimize_general_eq (PortfolioOptimizer.init rets rfr) sqrtFn solver rl mw mnw tr
      h1 h2 h3 h4 h5 h6 c5] at hr
    have hlow : 0 ≤ mnw.getD 0 := by
      cases mnw with
      | none => norm_num
      | some m => exact (h5 m rfl).1
    cases hsolve : solver ((PortfolioOptimizer.init rets rfr).problem sqrtFn rl mw mnw tr) with
    | raised m =>
      rw [hsolve] at hr
      exact Except.noConfusion hr
    | failure m =>
      rw [hsolve] at hr
      injection hr with hr'
      subst hr'
      simp only [PortfolioOptimizer.generalResult, PortfolioOptimizer._portfolio_stats,
        PortfolioOptimizer.initialWeights]
      have hlen : (List.replicate (PortfolioOptimizer.init rets rfr).n_assets
          (1 / ((PortfolioOptimizer.init rets rfr).n_assets : ℚ))).length = rets.length := by
        rw [List.length_replicate, hnass]
      refine ⟨?_, ?_, ?_⟩
      · rw [List.length_zip, hnames, hlen]
        exact Nat.min_self _
      · rw [List.map_snd_zip _ _ (by rw [hnames, hlen]), hnass,
          replicate_inv_sum rets.length hn0]
        norm_num
      · intro p hp
        have hp2 := (List.of_mem_zip hp).2
        have hval : p.2 = 1 / ((rets.length : ℕ) : ℚ) := by
          rw [hnass] at hp2
          exact List.eq_of_mem_replicate hp2
        rw [hval]
        constructor
        · positivity
        · exact inv_nat_le_of_one_le_mul rets.length mw hn0 (by rw [hnass] at h6; exact h6)
    | success x =>
      rw [hsolve] at hr
      injection hr with hr'
      subst hr'
      obtain ⟨hxlen, hxsum, hxmem⟩ := hs x hsolve
      simp only [PortfolioOptimizer.generalResult, PortfolioOptimizer._portfolio_stats]
      refine ⟨?_, ?_, ?_⟩
      · rw [List.length_zip, hnames, hxlen]
        exact Nat.min_self _
      · rw [List.map_snd_zip _ _ (by rw [hnames, hxlen])]
        exact hxsum
      · intro p hp
        have hp2 := (List.of_mem_zip hp).2
        obtain ⟨hlo, hhi⟩ := hxmem p.2 hp2
        exact ⟨le_trans hlow hlo, hhi⟩

/-- Concrete evaluation of the fixture under a non-converging solver: the
fallback result, for any valid supplied `minWeight`. -/
lemma opt2_failSolver_eval (mnw : Option ℚ) (h5 : ∀ m ∈ mnw, 0 ≤ m ∧ m ≤ 7/10) :
    opt2.optimize sq0 failSolver (1/10) (7/10) mnw none =
      .ok ⟨[("A", 1/2), ("B", 1/2)], 3/200, 0, 0⟩ := by
  have h := optimize_general_eq opt2 sq0 failSolver (1/10) (7/10) mnw none
    (by norm_num) (by norm_num) (by norm_num) (by norm_num) h5
    (by rw [opt2_n_assets]; norm_num) (by rw [opt2_n_assets]; omega)
  rw [h]
  norm_num [opt2, cexReturns, PortfolioOptimizer.init, PortfolioOptimizer.generalResult,
    PortfolioOptimizer._portfolio_stats, PortfolioOptimizer.initialWeights,
    dotQ, quadForm, colMean, sampleCov, sq0, failSolver, List.replicate]

/-- C1 counterexample: with two assets, `minWeight = 3/5` and `maxWeight = 7/10`
(all validation checks pass, `7/10 * 2 = 7/5 ≥ 1`) and a solver reporting
non-convergence, `optimize` returns the equal-weights fallback
`{A: 1/2, B: 1/2}` — and `1/2` lies strictly below the supplied `minWeight`,
far beyond any numerical tolerance, so the claimed lower bound
`weight ≥ minWeight` fails on the fallback path. -/
theorem optimize_minWeight_bound_cex :
    opt2.optimize sq0 failSolver (1/10) (7/10) (some (3/5)) none =
      .ok ⟨[("A", 1/2), ("B", 1/2)], 3/200, 0, 0⟩ ∧
    ¬ ((3:ℚ)/5 ≤ 1/2) := by
  constructor
  · exact opt2_failSolver_eval (some (3/5))
      (by intro m hm; simp at hm; subst hm; constructor <;> norm_num)
  · norm_num

/-- C1 witness: the amended bound-and-sum facts instantiated at the fixture's
fallback result (two assets, `maxWeight = 7/10`, no `minWeight`). -/
theorem optimize_weights_feasible_witness :
    ((⟨[("A", 1/2), ("B", 1/2)], 3/200, 0, 0⟩ : OptimizeResult).weights.length
      = cexReturns.length) ∧
    abs ((((⟨[("A", 1/2), ("B", 1/2)], 3/200, 0, 0⟩ : OptimizeResult).weights.map
        Prod.snd).sum - 1)) ≤ 1/1000000 := by
  have hr : (PortfolioOptimizer.init cexReturns (1/50)).optimize sq0 failSolver
      (1/10) (7/10) none none = .ok ⟨[("A", 1/2), ("B", 1/2)], 3/200, 0, 0⟩ :=
    opt2_failSolver_eval none (by simp)
  have h := optimize_weights_feasible cexReturns (1/50) sq0 failSolver (1/10) (7/10)
    none none ⟨[("A", 1/2), ("B", 1/2)], 3/200, 0, 0⟩
    (fun x hx => absurd hx (by simp [failSolver]))
    (by norm_num) (by norm_num) (by norm_num) (by norm_num) (by simp)
    (by norm_num [PortfolioOptimizer.init, cexReturns]) hr
  exact ⟨h.1, h.2.1⟩

/-- C3 counterexample: two valid riskLevels (`1/10` and `1`), all other inputs
identical (same data, same solver, same `maxWeight = 1`), yet `optimize`
returns different weight vectors — because the solved objective carries the
active volatility penalty `1000 * (vol - riskLevel)^2`, the solver is handed
a different objective for each riskLevel. -/
theorem riskLevel_changes_weights_cex :
    (opt2.optimize sq0 probeSolver (1/10) 1 none none ≠
      opt2.optimize sq0 probeSolver 1 1 none none) ∧
    (0 < (1:ℚ)/10 ∧ (1:ℚ)/10 ≤ 1) ∧ (0 < (1:ℚ) ∧ (1:ℚ) ≤ 1) := by
  refine ⟨?_, ⟨by norm_num, by norm_num⟩, ⟨by norm_num, by norm_num⟩⟩
  have e1 : opt2.optimize sq0 probeSolver (1/10) 1 none none =
      .ok ⟨[("A", 1/4), ("B", 3/4)], 7/400, 0, 0⟩ := by
    have h := optimize_general_eq opt2 sq0 probeSolver (1/10) 1 none none
      (by norm_num) (by norm_num) (by norm_num) (by norm_num) (by simp)
      (by rw [opt2_n_assets]; norm_num) (by rw [opt2_n_assets]; omega)
    rw [h]
    norm_num [opt2, cexReturns, PortfolioOptimizer.init, PortfolioOptimizer.generalResult,
      PortfolioOptimizer._portfolio_stats, PortfolioOptimizer._objective,
      PortfolioOptimizer.problem, PortfolioOptimizer.initialWeights,
      dotQ, quadForm, colMean, sampleCov, sq0, probeSolver, List.replicate]
  have e2 : opt2.optimize sq0 probeSolver 1 1 none none =
      .ok ⟨[("A", 3/4), ("B", 1/4)], 1/80, 0, 0⟩ := by
    have h := optimize_general_eq opt2 sq0 probeSolver 1 1 none none
      (by norm_num) (by norm_num) (by norm_num) (by norm_num) (by simp)
      (by rw [opt2_n_assets]; norm_num) (by rw [opt2_n_assets]; omega)
    rw [h]
    norm_num [opt2, cexReturns, PortfolioOptimizer.init, PortfolioOptimizer.generalResult,
      PortfolioOptimizer._portfolio_stats, PortfolioOptimizer._objective,
      PortfolioOptimizer.problem, PortfolioOptimizer.initialWeights,
      dotQ, quadForm, colMean, sampleCov, sq0, probeSolver, List.replicate]
  rw [e1, e2]
  intro hcontra
  injection hcontra with hres
  have hw := congrArg OptimizeResult.weights hres
  simp at hw
  norm_num at hw
